import Mathlib

/-!
Verification development for the `art_monitoring_client` utility
(`src/utils/art_monitoring_client.c`): a one-shot diagnostic client that
connects to a daemon's monitoring socket, sends one JSON request and decodes
the JSON status reply.

The development shallowly embeds:
 - the JSON value model and the semantics of the json-c library calls the
   client uses (`json_tokener_parse`, `json_object_to_json_string`,
   `json_object_object_get_ex`, `json_object_get_string`,
   `json_object_get_int`, `json_object_get_boolean`,
   `json_object_get_double`);
 - the request encoder and `json_send_and_receive` (send/recv outcomes are
   inputs of the model, the data-dependent control flow is translated
   faithfully);
 - the candidate-connection loop over `getaddrinfo` results;
 - the field-by-field decode of the reply performed by `main`, including the
   `strcmp` on the decoded `disciplining.status` pointer, which dereferences
   NULL when the field is absent (modelled as a `Crash`);
 - `main`'s exit statuses.

JSON numbers are modelled with `Int` for integer literals and `Rat` for
fractional literals (json-c distinguishes `json_type_int` and
`json_type_double`; no floating-point rounding behaviour is relied upon by
any theorem below).
-/

/-- The json-c value model. A JSON `null` has its own constructor; note that
json-c represents a JSON `null` *value* by a NULL `json_object*` pointer, so
lookups translate `null` to `Option.none` (see `json_object_object_get_ex`). -/
inductive Json where
  | null
  | boolean (b : Bool)
  | int (n : Int)
  | double (q : Rat)
  | str (s : String)
  | arr (elems : List Json)
  | obj (fields : List (String × Json))

/-- `json_object_object_add` semantics: adding a key that already exists
replaces the old binding in place, otherwise the pair is appended. -/
def addField : List (String × Json) → String → Json → List (String × Json)
  | [], k, v => [(k, v)]
  | (k0, v0) :: rest, k, v =>
    if k0 = k then (k, v) :: rest else (k0, v0) :: addField rest k v

/-- First binding of a key in an object's field list (keys are unique by
construction through `addField`). -/
def lookupField : List (String × Json) → String → Option Json
  | [], _ => none
  | (k0, v) :: rest, k => if k0 = k then some v else lookupField rest k

def hexDigitChar (d : Nat) : Char :=
  if d < 10 then Char.ofNat (48 + d) else Char.ofNat (87 + d)

/-- json-c string escaping (`json_escape_str`): quote, backslash and the
common control characters get two-character escapes, any other control
character becomes a `\u00XX` escape, everything else passes through. -/
def escapeChar (c : Char) : List Char :=
  if c = '"' then ['\\', '"']
  else if c = '\\' then ['\\', '\\']
  else if c = '\n' then ['\\', 'n']
  else if c = '\t' then ['\\', 't']
  else if c = '\r' then ['\\', 'r']
  else if c.toNat = 8 then ['\\', 'b']
  else if c.toNat = 12 then ['\\', 'f']
  else if c.toNat < 32 then
    ['\\', 'u', '0', '0', hexDigitChar (c.toNat / 16), hexDigitChar (c.toNat % 16)]
  else [c]

def escapeList : List Char → List Char
  | [] => []
  | c :: rest => escapeChar c ++ escapeList rest

/-- Fractional digits of a rational in `[0, 1)`, most significant first, at
most `n` of them, stopping at an exact zero remainder. -/
def fracDigits : Nat → Rat → List Char
  | 0, _ => []
  | Nat.succ n, q =>
    if q = 0 then []
    else
      let q10 := q * 10
      let d : Int := q10.floor
      Char.ofNat (48 + d.toNat) :: fracDigits n (q10 - (d : Rat))

/-- Decimal rendering of a `double` value: sign, integer part, fractional
digits, with a trailing `.0` for integral values. json-c actually prints with
`%.17g` and patches in a trailing `.0`; no theorem below serializes a
fractional value, the definition only fixes an executable rendering. -/
def ratToDecimalString (q : Rat) : String :=
  let sign := if q < 0 then "-" else ""
  let a := |q|
  let ip : Int := a.floor
  let fd := fracDigits 17 (a - (ip : Rat))
  sign ++ toString ip.toNat ++ "." ++ (if fd.isEmpty then "0" else String.mk fd)

mutual

/-- `json_object_to_json_string` with its default `JSON_C_TO_STRING_SPACED`
flag: objects render as `\x7b "k": v, "k2": v2 \x7d` (and `\x7b \x7d` when
empty), arrays as `[ v1, v2 ]` (and `[ ]` when empty). -/
def json_object_to_json_string : Json → String
  | Json.null => "null"
  | Json.boolean b => if b then "true" else "false"
  | Json.int n => toString n
  | Json.double q => ratToDecimalString q
  | Json.str s => "\"" ++ String.mk (escapeList s.data) ++ "\""
  | Json.arr elems => "[" ++ String.intercalate "," (serElems elems) ++ " ]"
  | Json.obj fields => "\x7b" ++ String.intercalate "," (serFields fields) ++ " \x7d"

def serElems : List Json → List String
  | [] => []
  | j :: rest => (" " ++ json_object_to_json_string j) :: serElems rest

def serFields : List (String × Json) → List String
  | [] => []
  | (k, v) :: rest =>
    (" \"" ++ String.mk (escapeList k.data) ++ "\": " ++ json_object_to_json_string v)
      :: serFields rest

end

/-- `json_object_get_int` clamps the stored 64-bit value into `int32_t`. -/
def clampInt32 (n : Int) : Int :=
  if n > 2147483647 then 2147483647
  else if n < -2147483648 then -2147483648
  else n

/-- Truncation toward zero, the C `(int)` cast applied to a double. -/
def ratTrunc (q : Rat) : Int :=
  if q < 0 then -((-q).floor) else q.floor

def skipWs : List Char → List Char
  | [] => []
  | c :: rest =>
    if c = ' ' ∨ c = '\t' ∨ c = '\n' ∨ c = '\r' then skipWs rest else c :: rest

def takeDigits : List Char → List Char × List Char
  | [] => ([], [])
  | c :: rest =>
    if c.isDigit then
      let p := takeDigits rest
      (c :: p.1, p.2)
    else ([], c :: rest)

def digitsToNat (ds : List Char) : Nat :=
  ds.foldl (fun acc c => acc * 10 + (c.toNat - 48)) 0

/-- `strtoll`-style integer prefix of a string (used by json-c when an
integer accessor is applied to a string value): skip whitespace, optional
sign, then decimal digits; no digits means 0. -/
def parseIntPrefix (s : String) : Int :=
  let cs := skipWs s.data
  let signed : Bool × List Char :=
    match cs with
    | '-' :: r => (true, r)
    | '+' :: r => (false, r)
    | _ => (false, cs)
  let n : Int := digitsToNat (takeDigits signed.2).1
  if signed.1 then -n else n

def hexVal (c : Char) : Option Nat :=
  if c.isDigit then some (c.toNat - 48)
  else if 'a' ≤ c ∧ c ≤ 'f' then some (c.toNat - 87)
  else if 'A' ≤ c ∧ c ≤ 'F' then some (c.toNat - 55)
  else none

/-- Body of a JSON string literal, entered after the opening quote; returns
the decoded characters and the input remaining after the closing quote.
Handles the standard two-character escapes and `\uXXXX`. -/
def parseStringChars : List Char → Option (List Char × List Char)
  | [] => none
  | '"' :: rest => some ([], rest)
  | '\\' :: rest =>
    match rest with
    | 'u' :: h1 :: h2 :: h3 :: h4 :: r =>
      match hexVal h1, hexVal h2, hexVal h3, hexVal h4 with
      | some a, some b, some c, some d =>
        (parseStringChars r).map
          (fun p => (Char.ofNat (((a * 16 + b) * 16 + c) * 16 + d) :: p.1, p.2))
      | _, _, _, _ => none
    | c :: r =>
      match
        (if c = '"' then some '"'
         else if c = '\\' then some '\\'
         else if c = '/' then some '/'
         else if c = 'n' then some '\n'
         else if c = 't' then some '\t'
         else if c = 'r' then some '\r'
         else if c = 'b' then some (Char.ofNat 8)
         else if c = 'f' then some (Char.ofNat 12)
         else none) with
      | some e => (parseStringChars r).map (fun p => (e :: p.1, p.2))
      | none => none
    | [] => none
  | c :: rest => (parseStringChars rest).map (fun p => (c :: p.1, p.2))

def pow10 (e : Int) : Rat :=
  if 0 ≤ e then ((10 : Rat) ^ e.toNat) else 1 / ((10 : Rat) ^ (-e).toNat)

/-- A JSON number token: optional minus, integer digits, optional fraction,
optional exponent. A number without fraction and exponent is a
`json_type_int`, otherwise a `json_type_double`. -/
def parseNumber (cs : List Char) : Option (Json × List Char) :=
  let signed : Bool × List Char :=
    match cs with
    | '-' :: r => (true, r)
    | _ => (false, cs)
  let ip := takeDigits signed.2
  if ip.1.isEmpty then none
  else
    let fracRes : Option (List Char × List Char × Bool) :=
      match ip.2 with
      | '.' :: r =>
        let fp := takeDigits r
        if fp.1.isEmpty then none else some (fp.1, fp.2, true)
      | _ => some ([], ip.2, false)
    match fracRes with
    | none => none
    | some (fs, cs3, hasFrac) =>
      let expRes : Option (Int × List Char × Bool) :=
        match cs3 with
        | c :: r =>
          if c = 'e' ∨ c = 'E' then
            let se : Int × List Char :=
              match r with
              | '+' :: rr => (1, rr)
              | '-' :: rr => (-1, rr)
              | _ => (1, r)
            let ep := takeDigits se.2
            if ep.1.isEmpty then none
            else some (se.1 * (digitsToNat ep.1 : Int), ep.2, true)
          else some (0, c :: r, false)
        | [] => some (0, [], false)
      match expRes with
      | none => none
      | some (ex, cs4, hasExp) =>
        if hasFrac ∨ hasExp then
          let mant : Rat :=
            (digitsToNat ip.1 : Rat) + (digitsToNat fs : Rat) / ((10 : Rat) ^ fs.length)
          let sgn : Rat := if signed.1 then -1 else 1
          some (Json.double (sgn * mant * pow10 ex), cs4)
        else
          some (Json.int (if signed.1 then -(digitsToNat ip.1 : Int) else (digitsToNat ip.1 : Int)), cs4)

mutual

/-- One JSON value, fuel-bounded recursive descent (fuel only bounds the
nesting, `json_tokener_parse` below supplies more fuel than the input is
long). -/
def parseValue : Nat → List Char → Option (Json × List Char)
  | 0, _ => none
  | fuel + 1, cs =>
    match skipWs cs with
    | [] => none
    | 'n' :: 'u' :: 'l' :: 'l' :: rest => some (Json.null, rest)
    | 't' :: 'r' :: 'u' :: 'e' :: rest => some (Json.boolean true, rest)
    | 'f' :: 'a' :: 'l' :: 's' :: 'e' :: rest => some (Json.boolean false, rest)
    | '"' :: rest => (parseStringChars rest).map (fun p => (Json.str (String.mk p.1), p.2))
    | '[' :: rest =>
      (match skipWs rest with
       | ']' :: r2 => some (Json.arr [], r2)
       | cs2 => parseElems fuel cs2 [])
    | c :: rest =>
      if c = Char.ofNat 123 then
        match skipWs rest with
        | [] => none
        | c2 :: r2 =>
          if c2 = Char.ofNat 125 then some (Json.obj [], r2)
          else parseMembers fuel (c2 :: r2) []
      else parseNumber (c :: rest)

/-- Members of an object, entered after the opening brace on a non-empty
body; repeated keys overwrite earlier ones through `addField`, as
`json_object_object_add` does. -/
def parseMembers : Nat → List Char → List (String × Json) → Option (Json × List Char)
  | 0, _, _ => none
  | fuel + 1, cs, acc =>
    match skipWs cs with
    | '"' :: rest =>
      (match parseStringChars rest with
       | none => none
       | some (key, r1) =>
         match skipWs r1 with
         | ':' :: r2 =>
           (match parseValue fuel r2 with
            | none => none
            | some (v, r3) =>
              let acc2 := addField acc (String.mk key) v
              match skipWs r3 with
              | ',' :: r4 => parseMembers fuel r4 acc2
              | c :: r4 =>
                if c = Char.ofNat 125 then some (Json.obj acc2, r4) else none
              | [] => none)
         | _ => none)
    | _ => none

/-- Elements of an array, entered after the opening bracket on a non-empty
body. -/
def parseElems : Nat → List Char → List Json → Option (Json × List Char)
  | 0, _, _ => none
  | fuel + 1, cs, acc =>
    match parseValue fuel cs with
    | none => none
    | some (v, r1) =>
      match skipWs r1 with
      | ',' :: r2 => parseElems fuel r2 (acc ++ [v])
      | ']' :: r2 => some (Json.arr (acc ++ [v]), r2)
      | _ => none

end

/-- `json_tokener_parse`: parse the first complete JSON value of the buffer,
NULL (`none`) on a malformed buffer. Like json-c's convenience entry point it
does not require the value to span the whole buffer, trailing bytes are left
unexamined. -/
def json_tokener_parse (s : String) : Option Json :=
  match parseValue (s.length + 1) s.data with
  | some (v, _) => some v
  | none => none

/-- `json_object_object_get_ex(obj, key, &val)` as observed through the only
thing the client checks, the pointer left in `val`: `none` when `obj` is NULL
or not an object, when the key is absent, or when the stored value is the
JSON `null` (json-c represents a JSON `null` value as a NULL pointer). -/
def json_object_object_get_ex (o : Option Json) (key : String) : Option Json :=
  match o with
  | some (Json.obj fields) =>
    match lookupField fields key with
    | some Json.null => none
    | some v => some v
    | none => none
  | _ => none

/-- `json_object_get_string`: NULL in, NULL out; a string value yields its
contents; any other value is serialized (json-c falls back to
`json_object_to_json_string`). -/
def json_object_get_string : Option Json → Option String
  | none => none
  | some (Json.str s) => some s
  | some j => some (json_object_to_json_string j)

/-- `json_object_get_int`: NULL yields 0; integer values are clamped into
`int32_t`; doubles truncate; booleans map to 0/1; strings are read with a
`strtoll`-style integer prefix; arrays and objects yield 0. -/
def json_object_get_int : Option Json → Int
  | none => 0
  | some (Json.int n) => clampInt32 n
  | some (Json.double q) => clampInt32 (ratTrunc q)
  | some (Json.boolean b) => if b then 1 else 0
  | some (Json.str s) => clampInt32 (parseIntPrefix s)
  | some _ => 0

/-- `json_object_get_boolean`: NULL yields false; integers and doubles are
true when non-zero; strings are true when non-empty; arrays and objects are
false. -/
def json_object_get_boolean : Option Json → Bool
  | none => false
  | some (Json.boolean b) => b
  | some (Json.int n) => n != 0
  | some (Json.double q) => q != 0
  | some (Json.str s) => s.length != 0
  | some _ => false

/-- `json_object_get_double`: NULL yields 0; numeric values convert exactly;
booleans map to 0/1; strings are parsed as a number token (json-c uses a
`strtod`-style conversion); arrays and objects yield 0. -/
def json_object_get_double : Option Json → Rat
  | none => 0
  | some (Json.double q) => q
  | some (Json.int n) => (n : Rat)
  | some (Json.boolean b) => if b then 1 else 0
  | some (Json.str s) =>
    (match parseNumber (skipWs s.data) with
     | some (Json.int n, _) => (n : Rat)
     | some (Json.double q, _) => q
     | _ => 0)
  | some _ => 0

/-- Modelled from the spec: the `REQUEST_*` constants come from
`monitoring.h`, which is not among the sources here; §3 of the spec lists the
closed set of request kinds and the client names the constants in its `-r`
option handling. The numeric codes are modelled as consecutive integers in
declaration order starting at `REQUEST_NONE = 0`. -/
inductive RequestKind where
  | none
  | calibration
  | gnss_start
  | gnss_stop
  | gnss_soft
  | gnss_hard
  | gnss_cold
  | read_eeprom
  | save_eeprom
  | fake_holdover_start
  | fake_holdover_stop
  | mro_coarse_inc
  | mro_coarse_dec
deriving DecidableEq, Repr

/-- Modelled from the spec: the numeric code of each `REQUEST_*` constant
(see `RequestKind`). -/
def requestCode : RequestKind → Int
  | RequestKind.none => 0
  | RequestKind.calibration => 1
  | RequestKind.gnss_start => 2
  | RequestKind.gnss_stop => 3
  | RequestKind.gnss_soft => 4
  | RequestKind.gnss_hard => 5
  | RequestKind.gnss_cold => 6
  | RequestKind.read_eeprom => 7
  | RequestKind.save_eeprom => 8
  | RequestKind.fake_holdover_start => 9
  | RequestKind.fake_holdover_stop => 10
  | RequestKind.mro_coarse_inc => 11
  | RequestKind.mro_coarse_dec => 12

/-- The request object built by `json_send_and_receive`:
`json_object_new_object()` followed by
`json_object_object_add(json_req, "request", json_object_new_int(request))`. -/
def buildRequestJson (request : Int) : Json :=
  Json.obj (addField [] "request" (Json.int request))

/-- Outcomes of the blocking socket calls inside one exchange, inputs of the
model: the return value of `send`, the return value of `recv`, and the bytes
the parser sees in the reply buffer afterwards. -/
structure NetEnv where
  sendResult : Int
  recvResult : Int
  recvBuf : String

/-- `json_send_and_receive`: serialize the request object, `send` it (only a
`-1` return is treated as an error), `recv` into a 2048-byte buffer (again
only a `-1` return is treated as an error — a 0 return, the peer closing
without replying, falls through), then `json_tokener_parse` the buffer.
`none` stands for the NULL returns of the error paths. -/
def json_send_and_receive (io : NetEnv) (request : Int) : Option Json :=
  let _req := json_object_to_json_string (buildRequestJson request)
  if io.sendResult == -1 then none
  else if io.recvResult == -1 then none
  else json_tokener_parse io.recvBuf

/-- Decoded `disciplining` subsection (locals of the first `if (layer_1 !=
NULL)` block of `main`). `status` is a plain `String` because the block
unconditionally applies `strcmp` to the decoded pointer, which has
dereferenced NULL by the time the block completes successfully. -/
structure Disciplining where
  status : String
  tracking_only : Option String
  current_phase_convergence_count : Int
  valid_phase_convergence_threshold : Int
  convergence_progress : Rat
  ready_for_holdover : Option String
deriving DecidableEq, Repr

/-- Decoded `oscillator` subsection. `fine_ctrl` and `coarse_ctrl` are the
C `uint32_t` values, i.e. the `int32` accessor result reduced mod 2^32. -/
structure Oscillator where
  model : Option String
  fine_ctrl : Int
  coarse_ctrl : Int
  lock : Bool
  temperature : Rat
deriving DecidableEq, Repr

/-- Decoded `clock` subsection (`cls` is the C local named `class`). -/
structure ClockStatus where
  cls : Option String
  offset : Int
deriving DecidableEq, Repr

/-- Decoded `gnss` subsection. -/
structure Gnss where
  fix : Int
  antenna_status : Int
  antenna_power : Int
  lsChange : Int
  leap_seconds : Int
  fixOk : Bool
  survey_in_position_error : Rat
deriving DecidableEq, Repr

/-- Decoded `calibration_parameters` block inside `disciplining_parameters`. -/
structure CalibrationParameters where
  ctrl_nodes_length : Int
  ctrl_load_nodes : Option String
  ctrl_drift_coeffs : Option String
  coarse_equilibrium : Int
  calibration_date : Int
  calibration_valid : Option String
  ctrl_nodes_length_factory : Int
  ctrl_load_nodes_factory : Option String
  ctrl_drift_coeffs_factory : Option String
  coarse_equilibrium_factory : Int
  estimated_equilibrium_ES : Int
deriving DecidableEq, Repr

/-- Decoded `disciplining_parameters` subsection: the optional
`calibration_parameters` block and the optional `temperature_table`, the
latter an ordered listing of the entries `json_object_object_foreach`
visits (a value may itself be serialized by `json_object_get_string`;
a NULL/JSON-null table value would print as glibc's `(null)`, kept as
`Option.none`). -/
structure DiscipliningParameters where
  calibration_parameters : Option CalibrationParameters
  temperature_table : Option (List (String × Option String))
deriving DecidableEq, Repr

/-- The decoded reply: one optional entry per top-level subsection `main`
looks for, in source order, plus the optional echoed action string. A `none`
subsection is one whose `json_object_object_get_ex` left a NULL pointer. -/
structure StatusReport where
  disciplining : Option Disciplining
  oscillator : Option Oscillator
  clock : Option ClockStatus
  gnss : Option Gnss
  disciplining_parameters : Option DiscipliningParameters
  action_requested : Option String
deriving DecidableEq, Repr

/-- Undefined-behaviour exits of `main`'s decode: `strcmp` applied to the
NULL `status` pointer, and `json_object_object_foreach` applied to a
non-object `temperature_table` (json-c dereferences the NULL result of
`json_object_get_object`). -/
inductive Crash where
  | nullStatusStrcmp
  | foreachNonObject
deriving DecidableEq, Repr

/-- The report with every subsection absent — what `main` decodes when the
reply object is NULL or has none of the keys it tests. -/
def emptyReport : StatusReport :=
  { disciplining := none, oscillator := none, clock := none, gnss := none,
    disciplining_parameters := none, action_requested := none }

/-- The `disciplining` block of `main`: each field is fetched with
`json_object_object_get_ex` and converted; the block then applies
`strcmp(status, "TRACKING")` (and two more `strcmp`s), so a NULL `status`
pointer — absent field or JSON `null` — is dereferenced. -/
def decodeDisciplining (layer1 : Json) : Except Crash Disciplining :=
  let status := json_object_get_string (json_object_object_get_ex (some layer1) "status")
  let tracking_only :=
    json_object_get_string (json_object_object_get_ex (some layer1) "tracking_only")
  let cpc := json_object_get_int
    (json_object_object_get_ex (some layer1) "current_phase_convergence_count")
  let vpt := json_object_get_int
    (json_object_object_get_ex (some layer1) "valid_phase_convergence_threshold")
  let cp := json_object_get_double
    (json_object_object_get_ex (some layer1) "convergence_progress")
  let rfh := json_object_get_string
    (json_object_object_get_ex (some layer1) "ready_for_holdover")
  match status with
  | none => Except.error Crash.nullStatusStrcmp
  | some s => Except.ok ⟨s, tracking_only, cpc, vpt, cp, rfh⟩

/-- The `oscillator` block of `main`; the two control values are read into
`uint32_t` locals, hence the mod 2^32. -/
def decodeOscillator (layer1 : Json) : Oscillator :=
  { model := json_object_get_string (json_object_object_get_ex (some layer1) "model")
    fine_ctrl :=
      (json_object_get_int (json_object_object_get_ex (some layer1) "fine_ctrl")) % 4294967296
    coarse_ctrl :=
      (json_object_get_int (json_object_object_get_ex (some layer1) "coarse_ctrl")) % 4294967296
    lock := json_object_get_boolean (json_object_object_get_ex (some layer1) "lock")
    temperature :=
      json_object_get_double (json_object_object_get_ex (some layer1) "temperature") }

/-- The `clock` block of `main`. -/
def decodeClock (layer1 : Json) : ClockStatus :=
  { cls := json_object_get_string (json_object_object_get_ex (some layer1) "class")
    offset := json_object_get_int (json_object_object_get_ex (some layer1) "offset") }

/-- The `gnss` block of `main`. -/
def decodeGnss (layer1 : Json) : Gnss :=
  { fix := json_object_get_int (json_object_object_get_ex (some layer1) "fix")
    antenna_status :=
      json_object_get_int (json_object_object_get_ex (some layer1) "antenna_status")
    antenna_power :=
      json_object_get_int (json_object_object_get_ex (some layer1) "antenna_power")
    lsChange := json_object_get_int (json_object_object_get_ex (some layer1) "lsChange")
    leap_seconds :=
      json_object_get_int (json_object_object_get_ex (some layer1) "leap_seconds")
    fixOk := json_object_get_boolean (json_object_object_get_ex (some layer1) "fixOk")
    survey_in_position_error :=
      json_object_get_double
        (json_object_object_get_ex (some layer1) "survey_in_position_error") }

/-- The `calibration_parameters` block of `main`. -/
def decodeCalibrationParameters (layer2 : Json) : CalibrationParameters :=
  { ctrl_nodes_length :=
      json_object_get_int (json_object_object_get_ex (some layer2) "ctrl_nodes_length")
    ctrl_load_nodes :=
      json_object_get_string (json_object_object_get_ex (some layer2) "ctrl_load_nodes")
    ctrl_drift_coeffs :=
      json_object_get_string (json_object_object_get_ex (some layer2) "ctrl_drift_coeffs")
    coarse_equilibrium :=
      json_object_get_int (json_object_object_get_ex (some layer2) "coarse_equilibrium")
    calibration_date :=
      json_object_get_int (json_object_object_get_ex (some layer2) "calibration_date")
    calibration_valid :=
      json_object_get_string (json_object_object_get_ex (some layer2) "calibration_valid")
    ctrl_nodes_length_factory :=
      json_object_get_int
        (json_object_object_get_ex (some layer2) "ctrl_nodes_length_factory")
    ctrl_load_nodes_factory :=
      json_object_get_string
        (json_object_object_get_ex (some layer2) "ctrl_load_nodes_factory")
    ctrl_drift_coeffs_factory :=
      json_object_get_string
        (json_object_object_get_ex (some layer2) "ctrl_drift_coeffs_factory")
    coarse_equilibrium_factory :=
      json_object_get_int
        (json_object_object_get_ex (some layer2) "coarse_equilibrium_factory")
    estimated_equilibrium_ES :=
      json_object_get_int
        (json_object_object_get_ex (some layer2) "estimated_equilibrium_ES") }

/-- The `temperature_table` foreach of `main`: iterate the entries of the
object, `json_object_get_string` on each value. On a non-object value
json-c's foreach macro dereferences NULL. -/
def decodeTemperatureTable (layer2 : Json) : Except Crash (List (String × Option String)) :=
  match layer2 with
  | Json.obj entries =>
    Except.ok (entries.map (fun p =>
      (p.1, json_object_get_string
        (match p.2 with
         | Json.null => Option.none
         | v => some v))))
  | _ => Except.error Crash.foreachNonObject

/-- The `disciplining_parameters` block of `main`. -/
def decodeDiscipliningParameters (layer1 : Json) : Except Crash DiscipliningParameters :=
  let calib :=
    match json_object_object_get_ex (some layer1) "calibration_parameters" with
    | none => Option.none
    | some layer2 => some (decodeCalibrationParameters layer2)
  match json_object_object_get_ex (some layer1) "temperature_table" with
  | none => Except.ok ⟨calib, none⟩
  | some layer2 =>
    match decodeTemperatureTable layer2 with
    | Except.error c => Except.error c
    | Except.ok t => Except.ok ⟨calib, some t⟩

/-- The decode portion of `main` (lines after `json_send_and_receive`): each
top-level subsection is tested with `json_object_object_get_ex` against the
keys `"disciplining"`, `"oscillator"`, `"clock"`, `"gnss"`,
`"disciplining_parameters"` and `"Action requested"` (the literal key of the
source, capital A and a space) and decoded when the pointer is non-NULL. -/
def decodeReport (obj : Option Json) : Except Crash StatusReport :=
  let discR : Except Crash (Option Disciplining) :=
    match json_object_object_get_ex obj "disciplining" with
    | none => Except.ok none
    | some l1 =>
      match decodeDisciplining l1 with
      | Except.error c => Except.error c
      | Except.ok d => Except.ok (some d)
  match discR with
  | Except.error c => Except.error c
  | Except.ok disc =>
    let osc := (json_object_object_get_ex obj "oscillator").map decodeOscillator
    let clk := (json_object_object_get_ex obj "clock").map decodeClock
    let gns := (json_object_object_get_ex obj "gnss").map decodeGnss
    let dpR : Except Crash (Option DiscipliningParameters) :=
      match json_object_object_get_ex obj "disciplining_parameters" with
      | none => Except.ok none
      | some l1 =>
        match decodeDiscipliningParameters l1 with
        | Except.error c => Except.error c
        | Except.ok d => Except.ok (some d)
    match dpR with
    | Except.error c => Except.error c
    | Except.ok dp =>
      let act := json_object_get_string (json_object_object_get_ex obj "Action requested")
      Except.ok ⟨disc, osc, clk, gns, dp, act⟩

/-- The entries of the decoded temperature table, empty when the
`disciplining_parameters` subsection or the table itself is absent. -/
def temperatureTableEntries (rep : StatusReport) : List (String × Option String) :=
  match rep.disciplining_parameters with
  | none => []
  | some dp => dp.temperature_table.getD []

/-- One `getaddrinfo` candidate as the connection loop observes it: whether
its `socket()` call succeeds and whether `connect()` on that socket returns
0. `id` identifies the candidate (stand-in for the address/fd). -/
structure Endpoint where
  id : Nat
  sockOk : Bool
  connOk : Bool
deriving DecidableEq, Repr

/-- The candidate loop of `main`: `socket()` failure skips the candidate
(nothing to close), a successful `connect` breaks out of the loop with the
socket open, a failed `connect` closes the socket and moves on. The result is
the connected candidate (NULL `current` when the list is exhausted) together
with the candidates whose opened socket was closed, in closing order. -/
def connectLoop : List Endpoint → Option Endpoint × List Endpoint
  | [] => (none, [])
  | e :: rest =>
    if e.sockOk then
      if e.connOk then (some e, [])
      else
        let r := connectLoop rest
        (r.1, e :: r.2)
    else connectLoop rest

/-- glibc `printf` renders a NULL `%s` argument as `(null)`; the client logs
`socket_addr` (NULL when `-a` was not given) this way. -/
def cFormatS : Option String → String
  | some s => s
  | none => "(null)"

/-- The message of the `log_error("Could not connect to %s:%s", ...)` call. -/
def connectErrorMessage (addr : Option String) (port : String) : String :=
  "Could not connect to " ++ cFormatS addr ++ ":" ++ port

/-- External outcomes of one run of `main` after argument parsing: the
`getaddrinfo` result (diagnostic text on failure, candidate list on success)
and the socket-call outcomes of the exchange. -/
structure Env where
  socket_addr : Option String
  socket_port : String
  resolution : Except String (List Endpoint)
  sendResult : Int
  recvResult : Int
  recvBuf : String

/-- How a modelled run of `main` ends. `resolutionFailed` and
`connectFailed` return `EXIT_FAILURE` before any exchange; `completed`
reaches the final `return EXIT_SUCCESS` (the code logs `PASSED !` there
regardless of how the exchange went); `crashed` is an undefined-behaviour
exit inside the decode. -/
inductive MainResult where
  | resolutionFailed (msg : String)
  | connectFailed (msg : String)
  | crashed (c : Crash)
  | completed (rep : StatusReport)
deriving DecidableEq, Repr

/-- `main` from the `getaddrinfo` call on (argument parsing, which the spec
scopes out, is assumed done): resolution failure and a fully-failed candidate
loop return `EXIT_FAILURE`; otherwise the exchange runs and the reply —
NULL or not — is decoded, ending at `return EXIT_SUCCESS`. -/
def runMain (env : Env) (request : Int) : MainResult :=
  match env.resolution with
  | Except.error diag =>
    MainResult.resolutionFailed
      ("Unable to get an Internet address from '" ++ cFormatS env.socket_addr ++ ":"
        ++ env.socket_port ++ "': " ++ diag)
  | Except.ok endpoints =>
    match (connectLoop endpoints).1 with
    | none => MainResult.connectFailed (connectErrorMessage env.socket_addr env.socket_port)
    | some _ =>
      let obj := json_send_and_receive
        ⟨env.sendResult, env.recvResult, env.recvBuf⟩ request
      match decodeReport obj with
      | Except.error c => MainResult.crashed c
      | Except.ok rep => MainResult.completed rep

/-- The process exit status of a run, `none` on an undefined-behaviour
crash (`EXIT_SUCCESS = 0`, `EXIT_FAILURE = 1`). -/
def exitCode : MainResult → Option Int
  | MainResult.resolutionFailed _ => some 1
  | MainResult.connectFailed _ => some 1
  | MainResult.crashed _ => none
  | MainResult.completed _ => some 0

/-- Whether the run reached `json_send_and_receive`. -/
def exchangeAttempted : MainResult → Bool
  | MainResult.resolutionFailed _ => false
  | MainResult.connectFailed _ => false
  | MainResult.crashed _ => true
  | MainResult.completed _ => true

/-- A fully failing candidate list leaves `current == NULL`. -/
theorem connectLoop_exhausted (l : List Endpoint)
    (h : ∀ x ∈ l, x.sockOk = false ∨ x.connOk = false) :
    (connectLoop l).1 = none := by
  induction l with
  | nil => rfl
  | cons a as ih =>
    have ha := h a (List.mem_cons_self a as)
    have has : ∀ x ∈ as, x.sockOk = false ∨ x.connOk = false :=
      fun x hx => h x (List.mem_cons_of_mem a hx)
    rcases ha with hsa | hca
    · simp [connectLoop, hsa, ih has]
    · by_cases hsa : a.sockOk
      · simp [connectLoop, hsa, hca, ih has]
      · simp [connectLoop, hsa, ih has]

/-- C1: the claim says a zero-byte `recv` (peer closed without replying)
fails the exchange like a `-1` does and never hands a reply buffer to the
decoder. The code only checks `ret == -1`: evaluated at a `recv` return of
0, `json_send_and_receive` parses the (in C, uninitialized) buffer and
returns the parsed object to the decoding code instead of failing. -/
theorem C1_zero_byte_read_reaches_decoder :
    json_send_and_receive ⟨21, 0, "\x7b\x7d"⟩ 5 = some (Json.obj []) := rfl

/-- C2: a reply whose bytes do not parse makes `json_tokener_parse` return
NULL, so the exchange yields no usable object and the subsequent decode
finds every subsection pointer NULL: no subsection of the reply is decoded
or reported. -/
theorem C2_unparseable_reply (s : String) (request sr rr : Int)
    (hparse : json_tokener_parse s = none) (hs : sr ≠ -1) (hr : rr ≠ -1) :
    json_send_and_receive ⟨sr, rr, s⟩ request = none ∧
      decodeReport (json_send_and_receive ⟨sr, rr, s⟩ request) = Except.ok emptyReport := by
  have hs2 : (sr == -1) = false := by simpa using hs
  have hr2 : (rr == -1) = false := by simpa using hr
  have h1 : json_send_and_receive ⟨sr, rr, s⟩ request = none := by
    simp [json_send_and_receive, hs2, hr2, hparse]
  exact ⟨h1, by rw [h1]; rfl⟩

/-- Witness for C2 at a concrete non-JSON reply. -/
theorem C2_unparseable_reply_witness :
    json_send_and_receive ⟨21, 120, "oscillatord"⟩ 0 = none ∧
      decodeReport (json_send_and_receive ⟨21, 120, "oscillatord"⟩ 0) =
        Except.ok emptyReport :=
  C2_unparseable_reply "oscillatord" 0 21 120 rfl (by decide) (by decide)

/-- C3: the claim says every one of the four error kinds makes the process
exit non-zero. Evaluated at a failing `send` (return `-1`, the code's
`TransportError` case, where it logs `FAIL`), the run still completes,
reports nothing, logs `PASSED !` and returns `EXIT_SUCCESS` (0). The same
happens for a `recv` error and for an unparseable reply. -/
theorem C3_transport_error_exits_success :
    runMain ⟨some "10.0.0.1", "2958", Except.ok [⟨3, true, true⟩], -1, 120, ""⟩ 7 =
        MainResult.completed emptyReport ∧
      exitCode
          (runMain ⟨some "10.0.0.1", "2958", Except.ok [⟨3, true, true⟩], -1, 120, ""⟩ 7) =
        some 0 :=
  ⟨rfl, rfl⟩

/-- C4: the claim says a present subsection with a missing field still
decodes without crashing. Evaluated at the raw reply bytes
`\x7b "disciplining": \x7b\x7d \x7d` — the `disciplining` subsection present,
its `status` field absent — the decode reaches
`strcmp(status, "TRACKING")` with `status == NULL` and crashes. -/
theorem C4_missing_status_crashes :
    decodeReport (json_tokener_parse "\x7b \"disciplining\": \x7b\x7d \x7d") =
      Except.error Crash.nullStatusStrcmp := rfl

/-- C5 counterexample: the claim says the decoder tests the top-level key
`action_requested` and reports the echoed action when it is present. On a
reply whose top level holds exactly that key, the decode completes with the
action reported absent — the decoder never examines `action_requested`. -/
theorem C5_counterexample :
    decodeReport (some (Json.obj [("action_requested", Json.str "gnss_start")])) =
      Except.ok emptyReport := rfl

/-- C5 (amended): the key the decoder tests is the source literal
`"Action requested"` (capital A, space): whenever the decode of an object
reply completes, the reported action is the string under `"Action requested"`
when that key is present, and absent when that key is missing. -/
theorem C5_amended_action_key (fields : List (String × Json)) (rep : StatusReport)
    (h : decodeReport (some (Json.obj fields)) = Except.ok rep) :
    (∀ s, lookupField fields "Action requested" = some (Json.str s) →
        rep.action_requested = some s) ∧
      (lookupField fields "Action requested" = none → rep.action_requested = none) := by
  have hact : rep.action_requested =
      json_object_get_string
        (json_object_object_get_ex (some (Json.obj fields)) "Action requested") := by
    simp only [decodeReport] at h
    split at h
    · exact absurd h (by simp)
    · split at h
      · exact absurd h (by simp)
      · injection h with h2
        rw [← h2]
  constructor
  · intro s hls
    rw [hact]
    simp [json_object_object_get_ex, hls, json_object_get_string]
  · intro hln
    rw [hact]
    simp [json_object_object_get_ex, hln, json_object_get_string]

/-- Witness for C5 (amended) at a reply carrying the source's key. -/
theorem C5_amended_action_key_witness :
    (∀ s,
        lookupField [("Action requested", Json.str "gnss_start")] "Action requested" =
            some (Json.str s) →
          ({ emptyReport with action_requested := some "gnss_start" } :
              StatusReport).action_requested = some s) ∧
      (lookupField [("Action requested", Json.str "gnss_start")] "Action requested" = none →
        ({ emptyReport with action_requested := some "gnss_start" } :
            StatusReport).action_requested = none) :=
  C5_amended_action_key [("Action requested", Json.str "gnss_start")]
    { emptyReport with action_requested := some "gnss_start" } rfl

/-- C6: when every candidate of a prefix fails (socket creation or connect)
and the next candidate connects, the loop stops there, the single resulting
connection is to that candidate (independently of any later candidates), and
the closed sockets are exactly the ones opened for the failed prefix. -/
theorem C6_connector_first_success (pre : List Endpoint) (e : Endpoint)
    (rest : List Endpoint)
    (hpre : ∀ x ∈ pre, x.sockOk = false ∨ x.connOk = false)
    (hs : e.sockOk = true) (hc : e.connOk = true) :
    connectLoop (pre ++ e :: rest) = (some e, pre.filter (fun x => x.sockOk)) := by
  induction pre with
  | nil => simp [connectLoop, hs, hc]
  | cons a as ih =>
    have ha := hpre a (List.mem_cons_self a as)
    have has : ∀ x ∈ as, x.sockOk = false ∨ x.connOk = false :=
      fun x hx => hpre x (List.mem_cons_of_mem a hx)
    rcases ha with hsa | hca
    · simp [connectLoop, hsa, List.filter_cons, ih has]
    · by_cases hsa : a.sockOk
      · simp [connectLoop, hsa, hca, List.filter_cons, ih has]
      · simp [connectLoop, hsa, List.filter_cons, ih has]

/-- Witness for C6: candidate 1 fails at `socket()`, candidate 2 fails at
`connect()` and is closed, candidate 3 connects, candidate 4 is never
examined. -/
theorem C6_connector_first_success_witness :
    connectLoop [⟨1, false, true⟩, ⟨2, true, false⟩, ⟨3, true, true⟩, ⟨4, true, true⟩] =
      (some ⟨3, true, true⟩, [⟨2, true, false⟩]) :=
  C6_connector_first_success [⟨1, false, true⟩, ⟨2, true, false⟩] ⟨3, true, true⟩
    [⟨4, true, true⟩] (by decide) rfl rfl

/-- C7: an empty or fully failing candidate list exhausts the loop, `main`
logs `Could not connect to host:port` and returns `EXIT_FAILURE` without
ever calling `json_send_and_receive`. -/
theorem C7_connection_error (env : Env) (request : Int) (endpoints : List Endpoint)
    (hres : env.resolution = Except.ok endpoints)
    (hfail : ∀ x ∈ endpoints, x.sockOk = false ∨ x.connOk = false) :
    runMain env request =
        MainResult.connectFailed (connectErrorMessage env.socket_addr env.socket_port) ∧
      exitCode (runMain env request) = some 1 ∧
      exchangeAttempted (runMain env request) = false := by
  have hnone := connectLoop_exhausted endpoints hfail
  have hrun : runMain env request =
      MainResult.connectFailed (connectErrorMessage env.socket_addr env.socket_port) := by
    simp [runMain, hres, hnone]
  exact ⟨hrun, by rw [hrun]; rfl, by rw [hrun]; rfl⟩

/-- Witness for C7 at an empty candidate list. -/
theorem C7_connection_error_witness :
    runMain ⟨none, "2958", Except.ok [], 0, 0, ""⟩ 0 =
        MainResult.connectFailed (connectErrorMessage none "2958") ∧
      exitCode (runMain ⟨none, "2958", Except.ok [], 0, 0, ""⟩ 0) = some 1 ∧
      exchangeAttempted (runMain ⟨none, "2958", Except.ok [], 0, 0, ""⟩ 0) = false :=
  C7_connection_error ⟨none, "2958", Except.ok [], 0, 0, ""⟩ 0 [] rfl (by simp)

/-- C8: for every request kind, the encoded wire message is the
single-field object `\x7b "request": code \x7d`, and parsing the message
back and extracting the `request` field returns the original code. -/
theorem C8_request_roundtrip (k : RequestKind) :
    json_tokener_parse (json_object_to_json_string (buildRequestJson (requestCode k))) =
        some (Json.obj [("request", Json.int (requestCode k))]) ∧
      json_object_get_int
          (json_object_object_get_ex
            (json_tokener_parse
              (json_object_to_json_string (buildRequestJson (requestCode k))))
            "request") =
        requestCode k := by
  cases k <;> exact ⟨rfl, rfl⟩

/-- C9: a reply holding only a valid `oscillator` subsection decodes to a
report with the oscillator fields (model, fine/coarse control, lock,
temperature) and every other subsection absent; the temperature table of
such a report is empty. -/
theorem C9_oscillator_only_reply (m : String) (f c : Int) (l : Bool) (t : Rat)
    (hf0 : 0 ≤ f) (hf1 : f < 2147483648) (hc0 : 0 ≤ c) (hc1 : c < 2147483648) :
    decodeReport (some (Json.obj [("oscillator", Json.obj
        [("model", Json.str m), ("fine_ctrl", Json.int f), ("coarse_ctrl", Json.int c),
         ("lock", Json.boolean l), ("temperature", Json.double t)])])) =
      Except.ok
        { disciplining := none,
          oscillator := some { model := some m, fine_ctrl := f, coarse_ctrl := c,
                               lock := l, temperature := t },
          clock := none, gnss := none, disciplining_parameters := none,
          action_requested := none } ∧
      (∀ rep,
        decodeReport (some (Json.obj [("oscillator", Json.obj
            [("model", Json.str m), ("fine_ctrl", Json.int f), ("coarse_ctrl", Json.int c),
             ("lock", Json.boolean l), ("temperature", Json.double t)])])) = Except.ok rep →
        temperatureTableEntries rep = []) := by
  have hclf : clampInt32 f = f := by
    unfold clampInt32; rw [if_neg (by omega), if_neg (by omega)]
  have hclc : clampInt32 c = c := by
    unfold clampInt32; rw [if_neg (by omega), if_neg (by omega)]
  have hmf : f % 4294967296 = f := by omega
  have hmc : c % 4294967296 = c := by omega
  have hmain : decodeReport (some (Json.obj [("oscillator", Json.obj
      [("model", Json.str m), ("fine_ctrl", Json.int f), ("coarse_ctrl", Json.int c),
       ("lock", Json.boolean l), ("temperature", Json.double t)])])) =
      Except.ok
        { disciplining := none,
          oscillator := some { model := some m, fine_ctrl := f, coarse_ctrl := c,
                               lock := l, temperature := t },
          clock := none, gnss := none, disciplining_parameters := none,
          action_requested := none } := by
    simp [decodeReport, decodeOscillator, json_object_object_get_ex, lookupField,
          json_object_get_string, json_object_get_int, json_object_get_boolean,
          json_object_get_double, hclf, hclc, hmf, hmc]
  refine ⟨hmain, fun rep hrep => ?_⟩
  rw [hmain] at hrep
  injection hrep with h2
  rw [← h2]
  rfl

/-- Witness for C9 at a concrete oscillator reply. -/
theorem C9_oscillator_only_reply_witness :
    decodeReport (some (Json.obj [("oscillator", Json.obj
        [("model", Json.str "mRO50"), ("fine_ctrl", Json.int 4000),
         ("coarse_ctrl", Json.int 315), ("lock", Json.boolean true),
         ("temperature", Json.double (91 / 2))])])) =
      Except.ok
        { disciplining := none,
          oscillator := some { model := some "mRO50", fine_ctrl := 4000, coarse_ctrl := 315,
                               lock := true, temperature := 91 / 2 },
          clock := none, gnss := none, disciplining_parameters := none,
          action_requested := none } ∧
      (∀ rep,
        decodeReport (some (Json.obj [("oscillator", Json.obj
            [("model", Json.str "mRO50"), ("fine_ctrl", Json.int 4000),
             ("coarse_ctrl", Json.int 315), ("lock", Json.boolean true),
             ("temperature", Json.double (91 / 2))])])) = Except.ok rep →
        temperatureTableEntries rep = []) :=
  C9_oscillator_only_reply "mRO50" 4000 315 true (91 / 2)
    (by decide) (by decide) (by decide) (by decide)

/-- C10: when resolution and connection succeed, the exchange I/O succeeds,
and the reply parses to an object carrying none of the keys the decoder
tests, the run completes with every subsection absent and the process
returns `EXIT_SUCCESS` (0). -/
theorem C10_unrecognized_keys_exit_success (env : Env) (request : Int)
    (endpoints : List Endpoint) (fields : List (String × Json))
    (hres : env.resolution = Except.ok endpoints)
    (hconn : (connectLoop endpoints).1.isSome = true)
    (hsend : env.sendResult ≠ -1) (hrecv : env.recvResult ≠ -1)
    (hparse : json_tokener_parse env.recvBuf = some (Json.obj fields))
    (h1 : lookupField fields "disciplining" = none)
    (h2 : lookupField fields "oscillator" = none)
    (h3 : lookupField fields "clock" = none)
    (h4 : lookupField fields "gnss" = none)
    (h5 : lookupField fields "disciplining_parameters" = none)
    (h6 : lookupField fields "Action requested" = none) :
    runMain env request = MainResult.completed emptyReport ∧
      exitCode (runMain env request) = some 0 := by
  obtain ⟨ep, hep⟩ := Option.isSome_iff_exists.mp hconn
  have hs2 : (env.sendResult == -1) = false := by simpa using hsend
  have hr2 : (env.recvResult == -1) = false := by simpa using hrecv
  have hobj : json_send_and_receive ⟨env.sendResult, env.recvResult, env.recvBuf⟩ request
      = some (Json.obj fields) := by
    simp [json_send_and_receive, hs2, hr2, hparse]
  have hdec : decodeReport (some (Json.obj fields)) = Except.ok emptyReport := by
    simp [decodeReport, json_object_object_get_ex, h1, h2, h3, h4, h5, h6,
          json_object_get_string, emptyReport]
  have hrun : runMain env request = MainResult.completed emptyReport := by
    simp [runMain, hres, hep, hobj, hdec]
  exact ⟨hrun, by rw [hrun]; rfl⟩

/-- Witness for C10 at the reply `\x7b\x7d`. -/
theorem C10_unrecognized_keys_exit_success_witness :
    runMain ⟨none, "2958", Except.ok [⟨0, true, true⟩], 21, 2, "\x7b\x7d"⟩ 3 =
        MainResult.completed emptyReport ∧
      exitCode (runMain ⟨none, "2958", Except.ok [⟨0, true, true⟩], 21, 2, "\x7b\x7d"⟩ 3) =
        some 0 :=
  C10_unrecognized_keys_exit_success
    ⟨none, "2958", Except.ok [⟨0, true, true⟩], 21, 2, "\x7b\x7d"⟩ 3
    [⟨0, true, true⟩] [] rfl rfl (by decide) (by decide) rfl rfl rfl rfl rfl rfl rfl
